import Mathlib

/-!
Verification of the two batch scripts in the Liverton-Learning repository:
`create_editing_tools_spreadsheet.py` (reference-table generator) and
`generate-icons.py` (PWA icon generator).  The scripts are embedded
shallowly: the spreadsheet row loops become a recursive function over the
hardcoded entry lists, and the image pipeline (canvas creation, PIL
`thumbnail`, `paste`) becomes pure functions on a record of width, height,
mode flag and a pixel map.
-/

set_option autoImplicit false

namespace Liverton

/-! ### Reference-table generator: data model

An entry of a domain sheet is a `(category, tool, description)` triple,
exactly as in the `word_data` / `spreadsheet_data` / `presentation_data`
literals of `create_editing_tools_spreadsheet.py`.  A written data row
records the three cell values together with whether the category cell
received the highlighted category fill/font (`styled`). -/

/-- A data row as written to a domain sheet: the three cell values and
whether the category cell received `category_fill` / `category_font`. -/
structure Row where
  cat : String
  tool : String
  desc : String
  styled : Bool
  deriving DecidableEq

/-- Default row used with `List.getD`. -/
def defaultRow : Row := ⟨"", "", "", false⟩

/-- Default entry used with `List.getD`. -/
def defaultEntry : String × String × String := ("", "", "")

/-- The row loop of the script (lines 54-62, 101-109, 149-157): starting
from a carried `current_category` string, each source triple is written as
one row whose category cell is `category if category else current_category`;
when the triple's own category is non-empty it becomes the new carried
value and the cell is styled with the category fill and font. -/
def writeRows : String → List (String × String × String) → List Row
  | _, [] => []
  | cur, (c, t, d) :: rest =>
      { cat := if c = "" then cur else c
        tool := t
        desc := d
        styled := !(c == "") } :: writeRows (if c = "" then cur else c) rest

/-- Spec-side decode: the nearest non-empty category at or before a
position, i.e. the last non-empty string of a prefix (default `init`). -/
def lastNonEmpty (init : String) (l : List String) : String :=
  l.foldl (fun acc c => if c = "" then acc else c) init

/-- The `word_data` literal (lines 32-52). -/
def word_data : List (String × String × String) := [
  ("Text Manipulation", "Cut", "Remove selected text and place it on clipboard"),
  ("", "Copy", "Duplicate selected text to clipboard"),
  ("", "Paste", "Insert clipboard content at cursor position"),
  ("", "Paste Special", "Insert with specific formatting options"),
  ("", "Undo", "Reverse the last action"),
  ("", "Redo", "Reapply the last undone action"),
  ("", "Select All", "Highlight all content in the document"),
  ("", "Find", "Search for specific text"),
  ("", "Find & Replace", "Search and substitute text throughout document"),
  ("Review & Proofing", "Spell Check", "Identify and correct spelling errors"),
  ("", "Grammar Check", "Detect grammar and style issues"),
  ("", "Word Count", "Display statistics (words, characters, pages)"),
  ("", "Translate", "Convert text to different languages"),
  ("", "Track Changes", "Record edits for review"),
  ("", "Suggesting Mode", "Propose changes without altering original"),
  ("", "Comments", "Add notes and feedback"),
  ("", "Review Changes", "Accept or reject tracked modifications"),
  ("", "Compare Documents", "Highlight differences between versions"),
  ("Voice & Input", "Voice Typing", "Dictate text using speech recognition")]

/-- The `spreadsheet_data` literal (lines 77-99). -/
def spreadsheet_data : List (String × String × String) := [
  ("Cell Editing", "Insert Row/Column", "Add new rows or columns"),
  ("", "Delete Row/Column", "Remove rows or columns"),
  ("", "Merge Cells", "Combine multiple cells into one"),
  ("", "Split Cells", "Divide merged cells"),
  ("", "Wrap Text", "Allow text to display on multiple lines"),
  ("", "Text Rotation", "Change text orientation"),
  ("", "Clear Contents", "Remove data while keeping formatting"),
  ("", "Fill Down", "Copy formula/content to cells below"),
  ("", "Fill Right", "Copy formula/content to cells right"),
  ("", "Find & Replace", "Search and replace cell content"),
  ("Data Manipulation", "Sort", "Arrange data alphabetically or numerically"),
  ("", "Filter", "Display only rows meeting criteria"),
  ("", "Remove Duplicates", "Eliminate repeated entries"),
  ("", "Data Validation", "Restrict input with rules"),
  ("", "Freeze Rows/Columns", "Keep headers visible while scrolling"),
  ("", "Hide / Unhide", "Conceal or reveal rows/columns"),
  ("", "Group / Ungroup", "Create collapsible data sections"),
  ("Calculation", "Functions", "Built-in formulas (SUM, AVERAGE, IF, etc.)"),
  ("", "AutoSum", "Quick sum of selected cells"),
  ("", "Formula Bar", "Edit cell formulas"),
  ("", "Recalculate", "Update all formula results")]

/-- The `presentation_data` literal (lines 124-147). -/
def presentation_data : List (String × String × String) := [
  ("Slide Editing", "New Slide", "Add a blank slide"),
  ("", "Duplicate Slide", "Create a copy of existing slide"),
  ("", "Delete Slide", "Remove a slide"),
  ("", "Reorder Slides", "Change slide sequence"),
  ("", "Slide Layouts", "Apply pre-designed arrangements"),
  ("", "Reset Slide", "Restore layout to default"),
  ("Object Editing", "Align Objects", "Position multiple items (left, center, right)"),
  ("", "Arrange Layers", "Bring to front / Send to back"),
  ("", "Group Objects", "Combine multiple items"),
  ("", "Ungroup", "Separate grouped items"),
  ("", "Rotate", "Turn objects at angles"),
  ("", "Flip", "Mirror objects horizontally or vertically"),
  ("", "Crop", "Trim image edges"),
  ("", "Resize", "Change object dimensions"),
  ("Visual Adjustments", "Backgrounds", "Change slide background color/image"),
  ("", "Themes", "Apply design templates"),
  ("", "Master Slide Edits", "Modify template for all slides"),
  ("Animation & Timing", "Entrance Animations", "Effects for objects appearing"),
  ("", "Exit Animations", "Effects for objects disappearing"),
  ("", "Motion Paths", "Define movement trajectories"),
  ("", "Timing Control", "Adjust animation speed and delays"),
  ("", "Trigger Actions", "Set animation start conditions")]

/-- The `ref_data` literal of the Quick Reference sheet (lines 173-177):
independently authored four-tuples (category, primary tools, advanced
features, total-count string). -/
def ref_data : List (String × String × String × String) := [
  ("Word Processors", "Cut, Copy, Paste, Find & Replace",
   "Track Changes, Compare, Voice Typing", "19"),
  ("Spreadsheets", "Insert/Delete, Sort, Filter",
   "Data Validation, Functions, Freeze", "21"),
  ("Presentations", "New/Duplicate Slides, Layouts",
   "Animations, Master Slides, Grouping", "22")]

/-- The Quick Reference row loop (lines 179-183): one four-cell row per
`ref_data` tuple, no carry-forward and no category styling. -/
def summaryRows (rd : List (String × String × String × String)) :
    List (List String) :=
  rd.map (fun r => [r.1, r.2.1, r.2.2.1, r.2.2.2])

/-- The workbook produced by one run of the script, as a function of the
four embedded data literals (the script applies it to `word_data`,
`spreadsheet_data`, `presentation_data` and `ref_data`): three domain
sheets built by the carry-forward row loop starting from the empty
`current_category`, and the Quick Reference sheet built from `ref_data`
alone. -/
structure Workbook where
  wordSheet : List Row
  spreadsheetSheet : List Row
  presentationSheet : List Row
  quickRef : List (List String)
  deriving DecidableEq

/-- Builds the workbook from the four data lists, mirroring the script
top to bottom. -/
def buildWorkbook (wd sd pd : List (String × String × String))
    (rd : List (String × String × String × String)) : Workbook where
  wordSheet := writeRows "" wd
  spreadsheetSheet := writeRows "" sd
  presentationSheet := writeRows "" pd
  quickRef := summaryRows rd

/-- One run of `create_editing_tools_spreadsheet.py`: the script has no
inputs (all data is embedded literals), so a run is a function of nothing. -/
def spreadsheetRun : Unit → Workbook :=
  fun _ => buildWorkbook word_data spreadsheet_data presentation_data ref_data

/-! ### Row-loop lemmas -/

theorem writeRows_length (cur : String) (data : List (String × String × String)) :
    (writeRows cur data).length = data.length := by
  induction data generalizing cur with
  | nil => rfl
  | cons e rest ih =>
    obtain ⟨c, t, d⟩ := e
    simp [writeRows, ih]

theorem writeRows_cat (data : List (String × String × String)) (cur : String)
    (i : Nat) (hi : i < data.length) :
    ((writeRows cur data).getD i defaultRow).cat
      = lastNonEmpty cur ((data.take (i + 1)).map (fun e => e.1)) := by
  induction data generalizing cur i with
  | nil => simp at hi
  | cons e rest ih =>
    obtain ⟨c, t, d⟩ := e
    cases i with
    | zero =>
      by_cases hc : c = "" <;>
        simp [writeRows, lastNonEmpty, hc]
    | succ n =>
      have hn : n < rest.length := by simpa using hi
      have hrec := ih (if c = "" then cur else c) n hn
      by_cases hc : c = "" <;>
        simpa [writeRows, lastNonEmpty, hc] using hrec

theorem writeRows_styled (data : List (String × String × String)) (cur : String)
    (i : Nat) (hi : i < data.length) :
    (((writeRows cur data).getD i defaultRow).styled = true
      ↔ (data.getD i defaultEntry).1 ≠ "") := by
  induction data generalizing cur i with
  | nil => simp at hi
  | cons e rest ih =>
    obtain ⟨c, t, d⟩ := e
    cases i with
    | zero =>
      simp [writeRows]
    | succ n =>
      have hn : n < rest.length := by simpa using hi
      simpa [writeRows] using ih (if c = "" then cur else c) n hn

/-! ### Icon generator: data model

An image is a record of width, height, a flag for whether its PIL mode is
`RGBA` (the only mode query the script makes), and a total pixel map into
8-bit RGBA quadruples.  PIL library calls used by `generate-icons.py` are
embedded as pure functions on this record: `Image.new` (a constant
canvas), `Image.thumbnail` (dimension arithmetic exactly as in PIL, pixel
content modelled by point sampling; the claims proved about pixel content
depend only on hypotheses about the scaled pixels or on regions outside
the pasted logo, not on the resampling kernel), and `Image.paste` with an
optional alpha mask (PIL's per-band `BLEND`, an exact `MULDIV255`
fixed-point blend). -/

/-- An 8-bit RGBA pixel (each channel a natural number, 0-255 in use). -/
structure RGBA where
  r : Nat
  g : Nat
  b : Nat
  a : Nat
  deriving DecidableEq

/-- A raster image: dimensions, whether the PIL mode is `RGBA`, and the
pixel map. -/
structure Img where
  width : Nat
  height : Nat
  hasAlpha : Bool
  pix : Nat → Nat → RGBA

/-- The `ICON_SIZES` list (lines 11-13 of `generate-icons.py`). -/
def ICON_SIZES : List Nat := [48, 72, 96, 120, 128, 144, 152, 180, 192, 256, 384, 512, 1024]

/-- PIL's fixed-point `MULDIV255(a, b)`: `tmp = a*b + 128;
((tmp >> 8) + tmp) >> 8`, an exact division of `a*b` by 255 with rounding
for 8-bit operands. -/
def muldiv255 (a b : Nat) : Nat :=
  ((a * b + 128) / 256 + (a * b + 128)) / 256

/-- PIL's per-channel `BLEND(mask, in1, in2)`:
`MULDIV255(in1, 255 - mask) + MULDIV255(in2, mask)`. -/
def blendChannel (m dst src : Nat) : Nat :=
  muldiv255 dst (255 - m) + muldiv255 src m

/-- Pixel blend of `src` over `dst` under mask value `m`, applied to all
four bands (PIL blends the alpha band of an RGBA destination too). -/
def blendRGBA (m : Nat) (dst src : RGBA) : RGBA :=
  ⟨blendChannel m dst.r src.r, blendChannel m dst.g src.g,
   blendChannel m dst.b src.b, blendChannel m dst.a src.a⟩

/-- `round_aspect(y * aspect, key=lambda n: abs(aspect - n / y))` at the
first call site of PIL `Image.thumbnail`, with `a / b` the exact value
`m * w / h`: PIL picks floor or ceiling of the number, whichever minimises
the key (for candidate `n` the key is `abs(a - n*b) / (b*m)`, so floor
wins exactly when `a - f*b ≤ c*b - a`, ties going to floor), then clamps
to at least 1. -/
def roundAspectWidth (a b : Nat) : Nat :=
  let f := a / b
  let c := if a % b = 0 then f else f + 1
  max (if a - f * b ≤ c * b - a then f else c) 1

/-- `round_aspect(x / aspect, key=lambda n: 0 if n == 0 else abs(aspect - x / n))`
at the second call site, with `a / b` the exact value `m * h / w`: the key
of a candidate `n` is `abs(w*n - m*h) / (h*n)` (0 for `n = 0`), so floor
wins exactly when `(a - f*b) * c ≤ (c*b - a) * f`, and a zero floor always
wins its tie. -/
def roundAspectHeight (a b : Nat) : Nat :=
  let f := a / b
  let c := if a % b = 0 then f else f + 1
  max (if f = 0 then 0
       else if (a - f * b) * c ≤ (c * b - a) * f then f else c) 1

/-- The size computation of PIL `Image.thumbnail((m, m))` in exact integer
arithmetic.  PIL floors the box to `(m, m)`, returns the original size
when the box dominates it, and otherwise fixes the constrained side to `m`
and rounds the other side with `round_aspect`.  The float comparison
`x / y >= aspect` with `x = y = m` is `h >= w` for any realistic
dimensions. -/
def thumbSize (w h m : Nat) : Nat × Nat :=
  if m ≥ w ∧ m ≥ h then (w, h)
  else if w ≤ h then (roundAspectWidth (m * w) h, m)
  else (m, roundAspectHeight (m * h) w)

/-- PIL `img.thumbnail((m, m), LANCZOS)`: no-op when the box dominates the
image (never upscale), otherwise in-place resize to `thumbSize`; resampled
pixel content is modelled by point sampling (the resampling kernel is
irrelevant to every claim proved about it). -/
def thumbnail (img : Img) (m : Nat) : Img :=
  if m ≥ img.width ∧ m ≥ img.height then img
  else
    let w2 := (thumbSize img.width img.height m).1
    let h2 := (thumbSize img.width img.height m).2
    { width := w2, height := h2, hasAlpha := img.hasAlpha,
      pix := fun i j => img.pix (i * img.width / w2) (j * img.height / h2) }

/-- Canvas background (lines 26 and 31): opaque white when maskable, fully
transparent white otherwise. -/
def bg_color (maskable : Bool) : RGBA :=
  if maskable then ⟨255, 255, 255, 255⟩ else ⟨255, 255, 255, 0⟩

/-- Padding (lines 28 and 32): `int(size * 0.2)` when maskable, else
`int(size * 0.1)`.  For every size below `2^49` the float product never
crosses an integer boundary, so the truncation equals `size / 5` resp.
`size / 10` in natural-number division. -/
def paddingOf (size : Nat) (maskable : Bool) : Nat :=
  if maskable then size / 5 else size / 10

/-- `max_logo_size = size - (2 * padding)` (line 34). -/
def max_logo_size (size : Nat) (maskable : Bool) : Nat :=
  size - 2 * paddingOf size maskable

/-- `Image.new('RGBA', (size, size), color)`: a constant canvas. -/
def newCanvas (size : Nat) (c : RGBA) : Img :=
  { width := size, height := size, hasAlpha := true, pix := fun _ _ => c }

/-- `dst.paste(src, (x, y), mask)` where `mask` is `src` itself when
`useMask` (the script passes the logo as its own mask exactly when its
mode is RGBA, so the mask band is `src`'s alpha): inside the pasted
rectangle the source replaces (or, under the mask, blends over) the
destination; outside it the destination is untouched. -/
def paste (dst src : Img) (x y : Nat) (useMask : Bool) : Img :=
  { dst with
    pix := fun i j =>
      if x ≤ i ∧ i < x + src.width ∧ y ≤ j ∧ j < y + src.height then
        let p := src.pix (i - x) (j - y)
        if useMask then blendRGBA p.a (dst.pix i j) p else p
      else dst.pix i j }

/-- `create_icon` (lines 15-49), as the image it saves: build the square
canvas with the maskable-dependent background, thumbnail the logo into
`max_logo_size`, centre it at `((size - w) // 2, (size - h) // 2)` and
paste it, using the logo as its own mask when its mode is RGBA.  The
offsets are natural-number divisions; the scaled logo never exceeds the
canvas (proved below), so they agree with Python's floor division. -/
def create_icon (img : Img) (size : Nat) (maskable : Bool) : Img :=
  let square_img := newCanvas size (bg_color maskable)
  let img2 := thumbnail img (max_logo_size size maskable)
  let x := (size - img2.width) / 2
  let y := (size - img2.height) / 2
  paste square_img img2 x y img2.hasAlpha

/-- `icon-{size}x{size}.png`. -/
def iconName (size : Nat) : String :=
  "icon-" ++ toString size ++ "x" ++ toString size ++ ".png"

/-- `icon-{size}x{size}-maskable.png`. -/
def maskableName (size : Nat) : String :=
  "icon-" ++ toString size ++ "x" ++ toString size ++ "-maskable.png"

/-- The files written by one run of `main` (lines 63-75), in order: for
each size the standard icon, plus the maskable variant when the size is in
`[192, 512]`, and finally `apple-touch-icon.png` at size 180,
non-maskable. -/
def main_outputs (src : Img) : List (String × Img) :=
  (ICON_SIZES.flatMap (fun s =>
    (iconName s, create_icon src s false) ::
      (if s = 192 ∨ s = 512 then [(maskableName s, create_icon src s true)] else [])))
  ++ [("apple-touch-icon.png", create_icon src 180 false)]

/-! ### Thumbnail arithmetic lemmas -/

theorem floorCeil_le (a b k : Nat) (hb : 0 < b) (hab : a ≤ k * b) :
    a / b ≤ k ∧ (a % b ≠ 0 → a / b + 1 ≤ k) := by
  have hfloor : a / b ≤ k := by
    calc a / b ≤ k * b / b := Nat.div_le_div_right hab
      _ = b * k / b := by rw [Nat.mul_comm]
      _ = k := Nat.mul_div_cancel_left k hb
  refine ⟨hfloor, fun hnz => ?_⟩
  rcases eq_or_lt_of_le hfloor with heq | hlt
  · exfalso
    have hdm : b * (a / b) + a % b = a := Nat.div_add_mod a b
    have hr : 0 < a % b := Nat.pos_of_ne_zero hnz
    have hlt2 : k * b < a := by
      calc k * b = b * (a / b) := by rw [heq, Nat.mul_comm]
        _ < b * (a / b) + a % b := Nat.lt_add_of_pos_right hr
        _ = a := hdm
    exact absurd hab (Nat.not_le_of_lt hlt2)
  · exact hlt

theorem ite_le_of_le {P : Prop} [Decidable P] {x y k : Nat} (hx : x ≤ k) (hy : y ≤ k) :
    (if P then x else y) ≤ k := by
  split <;> assumption

theorem roundAspectWidth_le (a b k : Nat) (hb : 0 < b) (hk : 0 < k) (hab : a ≤ k * b) :
    roundAspectWidth a b ≤ k := by
  obtain ⟨h1, h2⟩ := floorCeil_le a b k hb hab
  have hc : (if a % b = 0 then a / b else a / b + 1) ≤ k := by
    split
    · exact h1
    · next hnz => exact h2 hnz
  unfold roundAspectWidth
  exact max_le (ite_le_of_le h1 hc) hk

theorem roundAspectHeight_le (a b k : Nat) (hb : 0 < b) (hk : 0 < k) (hab : a ≤ k * b) :
    roundAspectHeight a b ≤ k := by
  obtain ⟨h1, h2⟩ := floorCeil_le a b k hb hab
  have hc : (if a % b = 0 then a / b else a / b + 1) ≤ k := by
    split
    · exact h1
    · next hnz => exact h2 hnz
  unfold roundAspectHeight
  exact max_le (ite_le_of_le (Nat.zero_le k) (ite_le_of_le h1 hc)) hk

theorem thumbSize_le_box (w h m : Nat) (hm : 0 < m) :
    (thumbSize w h m).1 ≤ m ∧ (thumbSize w h m).2 ≤ m := by
  unfold thumbSize
  split
  · next hwh => exact ⟨hwh.1, hwh.2⟩
  · next hwh =>
    split
    · next hle =>
      have hh0 : 0 < h := by
        rcases Nat.eq_zero_or_pos h with rfl | h0
        · exact absurd ⟨by omega, by omega⟩ hwh
        · exact h0
      exact ⟨roundAspectWidth_le (m * w) h m hh0 hm (Nat.mul_le_mul_left m hle), le_refl m⟩
    · next hgt =>
      have hw0 : 0 < w := by omega
      have hle2 : h ≤ w := by omega
      exact ⟨le_refl m, roundAspectHeight_le (m * h) w m hw0 hm (Nat.mul_le_mul_left m hle2)⟩

theorem thumbSize_le_orig (w h m : Nat) (hw : 0 < w) (hh : 0 < h) :
    (thumbSize w h m).1 ≤ w ∧ (thumbSize w h m).2 ≤ h := by
  unfold thumbSize
  split
  · exact ⟨le_refl w, le_refl h⟩
  · next hwh =>
    split
    · next hle =>
      have hmh : m < h := by omega
      refine ⟨?_, Nat.le_of_lt hmh⟩
      refine roundAspectWidth_le (m * w) h w hh hw ?_
      calc m * w ≤ h * w := Nat.mul_le_mul_right w (Nat.le_of_lt hmh)
        _ = w * h := Nat.mul_comm h w
    · next hgt =>
      have hmw : m < w := by omega
      refine ⟨Nat.le_of_lt hmw, ?_⟩
      refine roundAspectHeight_le (m * h) w h hw hh ?_
      calc m * h ≤ w * h := Nat.mul_le_mul_right h (Nat.le_of_lt hmw)
        _ = h * w := Nat.mul_comm w h


theorem thumbnail_le_box (img : Img) (m : Nat) (hm : 0 < m) :
    (thumbnail img m).width ≤ m ∧ (thumbnail img m).height ≤ m := by
  unfold thumbnail
  split
  · next hwh => exact ⟨hwh.1, hwh.2⟩
  · exact thumbSize_le_box img.width img.height m hm

theorem thumbnail_le_orig (img : Img) (m : Nat)
    (hw : 0 < img.width) (hh : 0 < img.height) :
    (thumbnail img m).width ≤ img.width ∧ (thumbnail img m).height ≤ img.height := by
  unfold thumbnail
  split
  · exact ⟨le_refl _, le_refl _⟩
  · exact thumbSize_le_orig img.width img.height m hw hh

theorem thumbnail_hasAlpha (img : Img) (m : Nat) :
    (thumbnail img m).hasAlpha = img.hasAlpha := by
  unfold thumbnail
  split <;> rfl

theorem max_logo_size_pos (size : Nat) (maskable : Bool) (hs : 0 < size) :
    0 < max_logo_size size maskable := by
  unfold max_logo_size paddingOf
  cases maskable <;> simp only [Bool.false_eq_true, if_true, if_false] <;> omega

theorem thumbnail_le_size (img : Img) (size : Nat) (maskable : Bool) (hs : 0 < size) :
    (thumbnail img (max_logo_size size maskable)).width ≤ size
    ∧ (thumbnail img (max_logo_size size maskable)).height ≤ size := by
  have hbox := thumbnail_le_box img (max_logo_size size maskable)
    (max_logo_size_pos size maskable hs)
  have hle : max_logo_size size maskable ≤ size := Nat.sub_le _ _
  exact ⟨le_trans hbox.1 hle, le_trans hbox.2 hle⟩

/-! ### Further helpers and a concrete source image -/

/-- A concrete 100 x 100 RGBA source image with constant fully transparent
pixels, used to instantiate the general theorems at a concrete input. -/
def sampleImg : Img :=
  { width := 100, height := 100, hasAlpha := true, pix := fun _ _ => ⟨10, 20, 30, 0⟩ }

theorem blendRGBA_zero_bg (maskable : Bool) (p : RGBA) :
    blendRGBA 0 (bg_color maskable) p = bg_color maskable := by
  cases maskable <;>
    simp [blendRGBA, blendChannel, muldiv255, bg_color]

theorem natCast_div_two_floor (n : Nat) : ((n / 2 : Nat) : ℤ) = ⌊((n : ℚ) / 2)⌋ := by
  rw [eq_comm, Int.floor_eq_iff]
  constructor
  · push_cast
    rw [le_div_iff₀ (by norm_num : (0:ℚ) < 2)]
    exact_mod_cast Nat.div_mul_le_self n 2
  · push_cast
    rw [div_lt_iff₀ (by norm_num : (0:ℚ) < 2)]
    have h : n < (n / 2 + 1) * 2 := by omega
    exact_mod_cast h

/-! ### Claims about the icon generator -/

/-- Claim C1, counterexample to the stated count: the full run writes 16
files (one per size in the 13-element `ICON_SIZES`, two maskable
variants, one apple-touch icon), not `len(sizes) + 2 = 15` as the claim
states. -/
theorem claim1_counterexample :
    ¬ ((main_outputs sampleImg).length = ICON_SIZES.length + 2) := by
  decide

/-- Claim C1 (amended): one full run writes exactly `len(sizes) + 3` files
in total: one standard variant per size in the size list, two additional
maskable variants for the two designated sizes (192 and 512), and one
apple-touch icon; the file names are pairwise distinct, so each write
lands in its own file, overwriting any existing file of the same name. -/
theorem claim1_file_count (src : Img) :
    (main_outputs src).length = ICON_SIZES.length + 3
    ∧ ((main_outputs src).map Prod.fst).Nodup := by
  refine ⟨rfl, ?_⟩
  show ([iconName 48, iconName 72, iconName 96, iconName 120, iconName 128,
    iconName 144, iconName 152, iconName 180, iconName 192, maskableName 192,
    iconName 256, iconName 384, iconName 512, maskableName 512, iconName 1024,
    "apple-touch-icon.png"] : List String).Nodup
  decide

/-- Claim C2, counterexample to the stated real-valued margin: for a
100 x 100 source at size 48, non-maskable, the code computes
`padding = int(48 * 0.1) = 4`, scales the logo to 40 x 40, and
`40 > 48 - 2 * (0.1 * 48) = 38.4`, violating the claimed bound with
`margin = 0.1 * s`. -/
theorem claim2_counterexample :
    ¬ (((max (thumbnail sampleImg (max_logo_size 48 false)).width
            (thumbnail sampleImg (max_logo_size 48 false)).height : Nat) : ℚ)
          ≤ (48 : ℚ) - 2 * (0.1 * 48)) := by
  have hW : (thumbnail sampleImg (max_logo_size 48 false)).width = 40 := by decide
  have hH : (thumbnail sampleImg (max_logo_size 48 false)).height = 40 := by decide
  rw [hW, hH]
  norm_num

/-- Claim C2 (amended): for every requested size `s` and maskable flag,
the logo that `create_icon` composites (the thumbnail of the source into
`max_logo_size`) is never upscaled beyond its native resolution, and its
longer dimension is at most `s - 2 * margin`, where `margin` is the
truncated `int(0.1 * s)` for non-maskable icons and `int(0.2 * s)` for
maskable icons (not the exact real products the claim states). -/
theorem claim2_logo_fits (img : Img) (s : Nat) (maskable : Bool)
    (hs : 0 < s) (hw : 0 < img.width) (hh : 0 < img.height) :
    max (thumbnail img (max_logo_size s maskable)).width
        (thumbnail img (max_logo_size s maskable)).height
      ≤ s - 2 * paddingOf s maskable
    ∧ (thumbnail img (max_logo_size s maskable)).width ≤ img.width
    ∧ (thumbnail img (max_logo_size s maskable)).height ≤ img.height := by
  have hbox := thumbnail_le_box img (max_logo_size s maskable)
    (max_logo_size_pos s maskable hs)
  have horig := thumbnail_le_orig img (max_logo_size s maskable) hw hh
  exact ⟨max_le hbox.1 hbox.2, horig.1, horig.2⟩

/-- Claim C2 witness: the amended bound at the concrete 100 x 100 source,
size 48, non-maskable. -/
theorem claim2_witness :
    0 < 48 ∧ 0 < sampleImg.width ∧ 0 < sampleImg.height
    ∧ (max (thumbnail sampleImg (max_logo_size 48 false)).width
          (thumbnail sampleImg (max_logo_size 48 false)).height
        ≤ 48 - 2 * paddingOf 48 false
      ∧ (thumbnail sampleImg (max_logo_size 48 false)).width ≤ sampleImg.width
      ∧ (thumbnail sampleImg (max_logo_size 48 false)).height ≤ sampleImg.height) :=
  ⟨by decide, by decide, by decide,
    claim2_logo_fits sampleImg 48 false (by decide) (by decide) (by decide)⟩

/-- Claim C6: for every requested size `s`, the image `create_icon` writes
for `s` is square with dimensions exactly `s` by `s`, regardless of the
source image's dimensions and of the maskable flag. -/
theorem claim6_output_square (img : Img) (s : Nat) (maskable : Bool) :
    (create_icon img s maskable).width = s
    ∧ (create_icon img s maskable).height = s :=
  ⟨rfl, rfl⟩

/-- The byte-observable content of the file written by `wb.save` at line
197 of `create_editing_tools_spreadsheet.py`, as a function of the clock
at save time.  Models openpyxl's save path: a fresh `openpyxl.Workbook()`
constructs `DocumentProperties` whose `created` and `modified` fields
default to the current time and are serialized into the archive member
`docProps/core.xml`, and the writer emits every archive member through
`zipfile.ZipFile.writestr` with a string arcname, which stamps each zip
entry header with the current local time.  All remaining bytes are a
function of the workbook cell model alone. -/
structure SavedFile where
  workbook : Workbook
  corePropsTimestamp : Nat
  zipHeaderTimestamp : Nat
  deriving DecidableEq

/-- One full run of the spreadsheet script including the save (lines
6-197), at clock reading `now`: the cell content is the constant
`spreadsheetRun ()`, while the document-properties timestamps and the
zip entry header times come from the clock, not from any input. -/
def wb_save (now : Nat) : SavedFile :=
  { workbook := spreadsheetRun ()
    corePropsTimestamp := now
    zipHeaderTimestamp := now }

/-- Claim C9, counterexample: two runs of the spreadsheet tool on
unchanged inputs (it has none) at clock readings 0 and 1 write files
that differ, because openpyxl stamps the current time into
`docProps/core.xml` and into every zip entry header.  So re-running the
tool does not produce byte-identical output files even with a fixed
library version, refuting the claim as stated. -/
theorem claim9_counterexample : wb_save 0 ≠ wb_save 1 := by
  intro h
  have h2 : (0 : Nat) = 1 := congrArg SavedFile.corePropsTimestamp h
  exact absurd h2 (by decide)

/-- Claim C9 (amended): the icon generator is deterministic — re-running
it on unchanged source image bytes with a fixed library version produces
identical outputs — and the spreadsheet tool's cell content is a
deterministic constant; the spreadsheet's saved file, however, embeds
the clock at save time (document properties and zip entry headers), so
two spreadsheet runs are byte-identical exactly when their clock
readings coincide: equal clocks give equal files, distinct clocks give
distinct files even on unchanged inputs. -/
theorem claim9_determinism_scope :
    (∀ a b : Img, a = b → main_outputs a = main_outputs b)
    ∧ (∀ u v : Unit, spreadsheetRun u = spreadsheetRun v)
    ∧ (∀ t u : Nat, t = u → wb_save t = wb_save u)
    ∧ (∀ t u : Nat, (wb_save t).workbook = (wb_save u).workbook)
    ∧ (∀ t u : Nat, t ≠ u → wb_save t ≠ wb_save u) :=
  ⟨fun _ _ h => by rw [h],
   fun _ _ => rfl,
   fun _ _ h => by rw [h],
   fun _ _ => rfl,
   fun _ _ hne h => hne (congrArg SavedFile.corePropsTimestamp h)⟩

/-- Claim C9 witness: the amended statement instantiated — the icon run
at the concrete source image, the spreadsheet save at equal clock
readings, and two saves at the distinct clock readings 3 and 7. -/
theorem claim9_witness :
    main_outputs sampleImg = main_outputs sampleImg
    ∧ wb_save 5 = wb_save 5
    ∧ wb_save 3 ≠ wb_save 7 :=
  ⟨claim9_determinism_scope.1 sampleImg sampleImg rfl,
   claim9_determinism_scope.2.2.1 5 5 rfl,
   claim9_determinism_scope.2.2.2.2 3 7 (by decide)⟩

/-- Claim C10: 180 is in the icon size list, and the apple-touch icon is
generated by the same `create_icon` call (size 180, non-maskable, same
source), so the file contents looked up under `icon-180x180.png` and
`apple-touch-icon.png` are identical for every source image. -/
theorem claim10_apple_matches_180 :
    180 ∈ ICON_SIZES
    ∧ ∀ src : Img,
        (main_outputs src).lookup (iconName 180)
          = (main_outputs src).lookup "apple-touch-icon.png" :=
  ⟨by decide, fun _ => rfl⟩

theorem paste_pix_in (dst src : Img) (x y i j : Nat)
    (hin : x ≤ i ∧ i < x + src.width ∧ y ≤ j ∧ j < y + src.height) :
    (paste dst src x y true).pix i j
      = blendRGBA (src.pix (i - x) (j - y)).a (dst.pix i j)
          (src.pix (i - x) (j - y)) := by
  simp only [paste]
  rw [if_pos hin, if_true]

theorem paste_pix_out (dst src : Img) (x y i j : Nat) (useMask : Bool)
    (hout : ¬ (x ≤ i ∧ i < x + src.width ∧ y ≤ j ∧ j < y + src.height)) :
    (paste dst src x y useMask).pix i j = dst.pix i j := by
  simp only [paste]
  rw [if_neg hout]

/-- Claim C5: for every generated icon, if maskable the canvas background
is opaque white and the four corner pixels equal that background; if not
maskable the canvas background is fully transparent white and the four
corner pixels have alpha 0, under the precondition that the scaled logo
does not touch the canvas edges (the pasted rectangle is strictly inside
the canvas). -/
theorem claim5_corners (img : Img) (s : Nat) (maskable : Bool)
    (hx : 0 < (s - (thumbnail img (max_logo_size s maskable)).width) / 2)
    (hy : 0 < (s - (thumbnail img (max_logo_size s maskable)).height) / 2)
    (hxe : (s - (thumbnail img (max_logo_size s maskable)).width) / 2
        + (thumbnail img (max_logo_size s maskable)).width < s)
    (hye : (s - (thumbnail img (max_logo_size s maskable)).height) / 2
        + (thumbnail img (max_logo_size s maskable)).height < s) :
    (∀ i j, (i = 0 ∨ i = s - 1) → (j = 0 ∨ j = s - 1) →
        (create_icon img s maskable).pix i j = bg_color maskable)
    ∧ bg_color true = ⟨255, 255, 255, 255⟩
    ∧ (bg_color false).a = 0 := by
  refine ⟨?_, rfl, rfl⟩
  intro i j hi hj
  have hcond : ¬ ((s - (thumbnail img (max_logo_size s maskable)).width) / 2 ≤ i
      ∧ i < (s - (thumbnail img (max_logo_size s maskable)).width) / 2
          + (thumbnail img (max_logo_size s maskable)).width
      ∧ (s - (thumbnail img (max_logo_size s maskable)).height) / 2 ≤ j
      ∧ j < (s - (thumbnail img (max_logo_size s maskable)).height) / 2
          + (thumbnail img (max_logo_size s maskable)).height) := by
    rcases hi with rfl | rfl <;> rcases hj with rfl | rfl <;> omega
  calc (create_icon img s maskable).pix i j
      = (paste (newCanvas s (bg_color maskable))
          (thumbnail img (max_logo_size s maskable))
          ((s - (thumbnail img (max_logo_size s maskable)).width) / 2)
          ((s - (thumbnail img (max_logo_size s maskable)).height) / 2)
          (thumbnail img (max_logo_size s maskable)).hasAlpha).pix i j := rfl
    _ = (newCanvas s (bg_color maskable)).pix i j :=
        paste_pix_out _ _ _ _ _ _ _ hcond
    _ = bg_color maskable := rfl

/-- Claim C5 witness: at the concrete 100 x 100 source image and size 48,
non-maskable, the preconditions hold (the 40 x 40 scaled logo sits at
offset (4, 4), strictly inside the 48 x 48 canvas) and the corner pixels
(0, 0) and (47, 47) are the transparent background. -/
theorem claim5_witness :
    0 < (48 - (thumbnail sampleImg (max_logo_size 48 false)).width) / 2
    ∧ 0 < (48 - (thumbnail sampleImg (max_logo_size 48 false)).height) / 2
    ∧ (48 - (thumbnail sampleImg (max_logo_size 48 false)).width) / 2
        + (thumbnail sampleImg (max_logo_size 48 false)).width < 48
    ∧ (48 - (thumbnail sampleImg (max_logo_size 48 false)).height) / 2
        + (thumbnail sampleImg (max_logo_size 48 false)).height < 48
    ∧ (create_icon sampleImg 48 false).pix 0 0 = bg_color false
    ∧ (create_icon sampleImg 48 false).pix 47 47 = bg_color false := by
  refine ⟨by decide, by decide, by decide, by decide, ?_, ?_⟩
  · exact (claim5_corners sampleImg 48 false (by decide) (by decide) (by decide)
      (by decide)).1 0 0 (Or.inl rfl) (Or.inl rfl)
  · exact (claim5_corners sampleImg 48 false (by decide) (by decide) (by decide)
      (by decide)).1 47 47 (Or.inr rfl) (Or.inr rfl)

/-- Claim C7: the scaled logo is composited onto the canvas centered at
`x = (s - logoWidth) / 2` and `y = (s - logoHeight) / 2` (the
natural-number divisions equal the floor of the exact rational
differences), and when the logo has an alpha channel that channel is used
as the compositing mask, so a scaled-logo pixel with alpha 0 leaves the
canvas background visible at its position. -/
theorem claim7_centered_composite (img : Img) (s : Nat) (maskable : Bool)
    (hs : 0 < s) (hw : 0 < img.width) (hh : 0 < img.height) :
    create_icon img s maskable
        = paste (newCanvas s (bg_color maskable))
            (thumbnail img (max_logo_size s maskable))
            ((s - (thumbnail img (max_logo_size s maskable)).width) / 2)
            ((s - (thumbnail img (max_logo_size s maskable)).height) / 2)
            (thumbnail img (max_logo_size s maskable)).hasAlpha
    ∧ (((s - (thumbnail img (max_logo_size s maskable)).width) / 2 : Nat) : ℤ)
        = ⌊(((s : ℚ) - ((thumbnail img (max_logo_size s maskable)).width : ℚ)) / 2)⌋
    ∧ (((s - (thumbnail img (max_logo_size s maskable)).height) / 2 : Nat) : ℤ)
        = ⌊(((s : ℚ) - ((thumbnail img (max_logo_size s maskable)).height : ℚ)) / 2)⌋
    ∧ (img.hasAlpha = true →
        ∀ i j : Nat,
          (s - (thumbnail img (max_logo_size s maskable)).width) / 2 ≤ i →
          i < (s - (thumbnail img (max_logo_size s maskable)).width) / 2
              + (thumbnail img (max_logo_size s maskable)).width →
          (s - (thumbnail img (max_logo_size s maskable)).height) / 2 ≤ j →
          j < (s - (thumbnail img (max_logo_size s maskable)).height) / 2
              + (thumbnail img (max_logo_size s maskable)).height →
          ((thumbnail img (max_logo_size s maskable)).pix
              (i - (s - (thumbnail img (max_logo_size s maskable)).width) / 2)
              (j - (s - (thumbnail img (max_logo_size s maskable)).height) / 2)).a
            = 0 →
          (create_icon img s maskable).pix i j = bg_color maskable) := by
  have hle := thumbnail_le_size img s maskable hs
  refine ⟨rfl, ?_, ?_, ?_⟩
  · rw [← Nat.cast_sub hle.1]
    exact natCast_div_two_floor _
  · rw [← Nat.cast_sub hle.2]
    exact natCast_div_two_floor _
  · intro ha i j h1 h2 h3 h4 hz
    have hmask : (thumbnail img (max_logo_size s maskable)).hasAlpha = true := by
      rw [thumbnail_hasAlpha]; exact ha
    have hstruct : create_icon img s maskable
        = paste (newCanvas s (bg_color maskable))
            (thumbnail img (max_logo_size s maskable))
            ((s - (thumbnail img (max_logo_size s maskable)).width) / 2)
            ((s - (thumbnail img (max_logo_size s maskable)).height) / 2)
            true := by
      show paste (newCanvas s (bg_color maskable))
          (thumbnail img (max_logo_size s maskable))
          ((s - (thumbnail img (max_logo_size s maskable)).width) / 2)
          ((s - (thumbnail img (max_logo_size s maskable)).height) / 2)
          (thumbnail img (max_logo_size s maskable)).hasAlpha = _
      rw [hmask]
    rw [hstruct, paste_pix_in _ _ _ _ _ _ ⟨h1, h2, h3, h4⟩, hz]
    exact blendRGBA_zero_bg maskable _

/-- Claim C7 witness: at the concrete (fully transparent, RGBA) source
image, size 48, non-maskable, the pixel at (10, 10) lies inside the
pasted rectangle, the scaled logo has alpha 0 there, and the output pixel
is the canvas background. -/
theorem claim7_witness :
    0 < 48 ∧ 0 < sampleImg.width ∧ 0 < sampleImg.height
    ∧ sampleImg.hasAlpha = true
    ∧ (create_icon sampleImg 48 false).pix 10 10 = bg_color false :=
  ⟨by decide, by decide, by decide, rfl,
    (claim7_centered_composite sampleImg 48 false (by decide) (by decide)
        (by decide)).2.2.2 rfl 10 10 (by decide) (by decide) (by decide)
      (by decide) (by decide)⟩

/-! ### Claims about the reference-table generator -/

/-- Claim C3: for every sheet built from an entry list by the carry-forward
row loop, the number of data rows written equals the length of that list,
and the category cell of every row equals the nearest preceding (or own)
non-empty category in that same list — the run-length carry-forward
decode, with the loop's initial empty `current_category` as default. -/
theorem claim3_rows_decode (data : List (String × String × String)) :
    (writeRows "" data).length = data.length
    ∧ ∀ i, i < data.length →
        ((writeRows "" data).getD i defaultRow).cat
          = lastNonEmpty "" ((data.take (i + 1)).map (fun e => e.1)) :=
  ⟨writeRows_length "" data, fun i hi => writeRows_cat data "" i hi⟩

/-- Claim C3 witness: on the `word_data` sheet, row 10 (a continuation
row) decodes to the nearest preceding non-empty category, and the sheet
has as many rows as entries. -/
theorem claim3_witness :
    (writeRows "" word_data).length = word_data.length
    ∧ 10 < word_data.length
    ∧ ((writeRows "" word_data).getD 10 defaultRow).cat
        = lastNonEmpty "" ((word_data.take 11).map (fun e => e.1)) :=
  ⟨(claim3_rows_decode word_data).1, by decide,
    (claim3_rows_decode word_data).2 10 (by decide)⟩

/-- Claim C4: in every domain sheet, exactly the rows whose source triple
has a non-empty category receive the category fill and font on their
category cell; continuation rows (empty category in the source triple) do
not, so the first row of every category run is visually distinguished. -/
theorem claim4_category_styling (data : List (String × String × String))
    (i : Nat) (hi : i < data.length) :
    (((writeRows "" data).getD i defaultRow).styled = true
      ↔ (data.getD i defaultEntry).1 ≠ "") :=
  writeRows_styled data "" i hi

/-- Claim C4 witness: on `word_data`, row 9 carries the explicit category
`Review & Proofing` and is styled; by the same instance row 10 is an
unstyled continuation row. -/
theorem claim4_witness :
    9 < word_data.length
    ∧ (((writeRows "" word_data).getD 9 defaultRow).styled = true
        ↔ (word_data.getD 9 defaultEntry).1 ≠ "") :=
  ⟨by decide, claim4_category_styling word_data 9 (by decide)⟩

/-- Claim C8: the Quick Reference sheet's data-row count equals the length
of its own independently-authored `ref_data` list (3 rows, one per
four-tuple, for any such list), and its contents are a function of
`ref_data` alone: swapping the three detail-sheet entry lists for any
others leaves the Quick Reference sheet unchanged. -/
theorem claim8_summary_independent :
    (spreadsheetRun ()).quickRef = summaryRows ref_data
    ∧ (summaryRows ref_data).length = ref_data.length
    ∧ ref_data.length = 3
    ∧ (∀ rd, (summaryRows rd).length = rd.length)
    ∧ (∀ wd sd pd, (buildWorkbook wd sd pd ref_data).quickRef = summaryRows ref_data) :=
  ⟨rfl, by simp [summaryRows], rfl, fun rd => by simp [summaryRows],
    fun _ _ _ => rfl⟩

end Liverton
